import Mathlib

/-!
Verification of the puppet identity cache and attribute-reconciliation
engine of mautrix_telegram (src/mautrix_telegram/puppet.py and
src/mautrix_telegram/db/puppet.py), as a shallow embedding in Lean.

Python `Optional` values are modelled with `Option`; Python truthiness of
optional strings and optional integer ids is made explicit; the external
presentation layer (Matrix intent), the remote client fetch and the record
store are modelled as oracles passed in as parameters, and the calls made to
them are recorded in the result so that "no call is made" is provable.
-/

namespace MautrixTelegram

/-- Python truthiness of an `Optional[str]`: `None` and `""` are falsy. -/
def optTruthy : Option String → Bool
  | none => false
  | some s => !(s == "")

/-- Python truthiness of an `Optional[int]`: `None` and `0` are falsy. -/
def idTruthy : Option Nat → Bool
  | none => false
  | some n => !(n == 0)

/-- In-memory `Puppet` state: the fields set by `Puppet.__init__`
(src/mautrix_telegram/puppet.py lines 58-90, column shapes from
src/mautrix_telegram/db/puppet.py). -/
structure PuppetState where
  id : Nat
  is_registered : Bool := false
  displayname : Option String := none
  displayname_source : Option Nat := none
  displayname_contact : Bool := true
  displayname_quality : Int := 0
  disable_updates : Bool := false
  username : Option String := none
  photo_id : Option String := none
  is_bot : Option Bool := some false
  custom_mxid : Option String := none
  access_token : Option String := none
  next_batch : Option String := none
  base_url : Option String := none
  deriving DecidableEq, Repr

/-- The updating source (`au.AbstractUser`): the fields `update_displayname`
reads from it. -/
structure Source where
  tgid : Nat
  is_relaybot : Bool
  is_bot : Bool
  deriving DecidableEq, Repr

/-- A Telegram `User` profile as consumed by `get_displayname` /
`update_displayname`: `first_name`, `last_name`, `username`, `phone` are
optional strings, plus the `deleted`, `bot` and `contact` flags. -/
structure User where
  id : Nat
  first_name : Option String := none
  last_name : Option String := none
  username : Option String := none
  phone : Option String := none
  deleted : Bool := false
  bot : Bool := false
  contact : Bool := false
  deriving DecidableEq, Repr

/-- The `info` argument of `update_displayname` is `User | UpdateUserName`;
an `UpdateUserName` is replaced by a fresh entity fetch after the
eligibility check. -/
inductive InfoArg where
  | user (u : User)
  | updateUserName
  deriving DecidableEq, Repr

/-- The six keys of the `data` dict in `get_displayname`
(the legal values of `bridge.displayname_preference`). -/
inductive NamePref where
  | phone_number
  | username
  | full_name
  | full_name_reversed
  | first_name
  | last_name
  deriving DecidableEq, Repr

/-- The configuration values read by the reconciliation code. The
`bridge.displayname_template` has a single `displayname` placeholder, so
`SimpleTemplate.format_full` is the map `name => tpl_head ++ name ++ tpl_tail`. -/
structure Config where
  displayname_preference : List NamePref
  tpl_head : String := ""
  tpl_tail : String := ""
  displayname_max_length : Nat := 100
  allow_avatar_remove : Bool := false
  deriving DecidableEq, Repr

/-- Python `str.isspace` characters (by code point): ASCII whitespace and
control separators plus the Unicode space separators; used by the bare
`str.strip()` in `get_displayname`. -/
def isPySpace (n : Nat) : Bool :=
  (9 ≤ n && n ≤ 13) || (0x1c ≤ n && n ≤ 0x1f) || n == 32 || n == 0x85 ||
  n == 0xa0 || n == 0x1680 || (0x2000 ≤ n && n ≤ 0x200a) ||
  n == 0x2028 || n == 0x2029 || n == 0x202f || n == 0x205f || n == 0x3000

/-- Python `str.strip()` with no argument: remove leading and trailing whitespace. -/
def pyStrip (s : String) : String :=
  let l := s.toList.dropWhile (fun c => isPySpace c.toNat)
  String.mk ((l.reverse.dropWhile (fun c => isPySpace c.toNat)).reverse)

/-- The `whitespace` strip set of `Puppet._filter_name` (puppet.py lines
174-178), by code point. Note that it contains U+200B..U+200F, in
particular the zero-width joiner U+200D. -/
def filterStripSet : List Nat :=
  [9, 10, 13, 11, 12, 32, 0xa0, 0x34f, 0x180e, 0x2063, 0x202f, 0x205f,
   0x2800, 0x3000, 0x3164, 0xfeff, 0x2000, 0x2001, 0x2002, 0x2003, 0x2004,
   0x2005, 0x2006, 0x2007, 0x2008, 0x2009, 0x200a, 0x200b, 0x200c, 0x200d,
   0x200e, 0x200f, 0xfe0f]

/-- Test for `unicodedata.category(c) == "Cf"`: the Unicode "format, other"
general category, by code point ranges (Unicode 14, as shipped with the
CPython used by the bridge). -/
def isCf (n : Nat) : Bool :=
  n == 0xad || (0x600 ≤ n && n ≤ 0x605) || n == 0x61c || n == 0x6dd ||
  n == 0x70f || (0x890 ≤ n && n ≤ 0x891) || n == 0x8e2 || n == 0x180e ||
  (0x200b ≤ n && n ≤ 0x200f) || (0x202a ≤ n && n ≤ 0x202e) ||
  (0x2060 ≤ n && n ≤ 0x2064) || (0x2066 ≤ n && n ≤ 0x206f) ||
  n == 0xfeff || (0xfff9 ≤ n && n ≤ 0xfffb) ||
  n == 0x110bd || n == 0x110cd || (0x13430 ≤ n && n ≤ 0x13438) ||
  (0x1bca0 ≤ n && n ≤ 0x1bca3) || (0x1d173 ≤ n && n ≤ 0x1d17a) ||
  n == 0xe0001 || (0xe0020 ≤ n && n ≤ 0xe007f)

/-- Embedding of `Puppet._filter_name` (puppet.py lines 170-185): on a falsy input
return `""`; otherwise strip the `whitespace` set from both ends, then drop
every Cf character except the zero-width joiner U+200D and non-joiner
U+200C. -/
def filter_name (name : Option String) : String :=
  match name with
  | none => ""
  | some s =>
    if s == "" then ""
    else
      let inStrip := fun (c : Char) => filterStripSet.contains c.toNat
      let l := s.toList.dropWhile inStrip
      let l := (l.reverse.dropWhile inStrip).reverse
      String.mk (l.filter (fun c => !(isCf c.toNat) || c.toNat == 0x200d || c.toNat == 0x200c))

/-- The `data` dict of `get_displayname` (puppet.py lines 191-198): the
candidate value for each preference key. -/
def prefValue (u : User) : NamePref → Option String
  | .phone_number => u.phone
  | .username => u.username
  | .full_name =>
      some (pyStrip (filter_name u.first_name ++ " " ++ filter_name u.last_name))
  | .full_name_reversed =>
      some (pyStrip (filter_name u.last_name ++ " " ++ filter_name u.first_name))
  | .first_name => some (filter_name u.first_name)
  | .last_name => some (filter_name u.last_name)

/-- The preference loop of `get_displayname` (puppet.py lines 200-206):
quality starts at 99 and drops by one for every skipped falsy preference;
the first truthy preference wins. Returns `none` when the list is
exhausted without a truthy value. -/
def pick_name (u : User) : List NamePref → Int → Option String × Int
  | [], q => (none, q)
  | pref :: rest, q =>
    let v := prefValue u pref
    if optTruthy v then (v, q) else pick_name u rest (q - 1)

/-- The map `displayname_template.format_full` applied when `enable_format` is set. -/
def format_name (cfg : Config) (enable_format : Bool) (name : String) : String :=
  if enable_format then cfg.tpl_head ++ name ++ cfg.tpl_tail else name

/-- Embedding of `Puppet.get_displayname` (puppet.py lines 187-215): resolve a
`(name, quality)` pair from the profile. A deleted account always resolves
to `"Deleted account <id>"` with quality 99; if no preference yields a
truthy value the stringified id is used with quality 0. -/
def get_displayname (cfg : Config) (u : User) (enable_format : Bool) : String × Int :=
  let picked := pick_name u cfg.displayname_preference 99
  if u.deleted then
    (format_name cfg enable_format ("Deleted account " ++ toString u.id), 99)
  else
    match picked with
    | (some n, q) => (format_name cfg enable_format n, q)
    | (none, _) => (format_name cfg enable_format (toString u.id), 0)

/-- Result of `update_displayname`: the post-call in-memory state, the
returned boolean, and the list of `set_displayname` calls issued to the
presentation layer (the truncated names pushed). -/
structure DNResult where
  state : PuppetState
  ret : Bool
  calls : List String
  deriving DecidableEq, Repr

/-- The eligibility `if`/`elif` chain at the top of `update_displayname`
(puppet.py lines 246-257): an update proceeds only if the source is a
relaybot or bot, or the source is the displayname source of record, or the
incoming profile is a plain `User` that is NOT a contact, or no truthy
displayname source is set, or no truthy displayname is set. -/
def displayname_update_allowed (p : PuppetState) (source : Source) (info : InfoArg) : Bool :=
  if source.is_relaybot || source.is_bot then true
  else if p.displayname_source == some source.tgid then true
  else if (match info with | .user u => !u.contact | .updateUserName => false) then true
  else if !(idTruthy p.displayname_source) then true
  else if !(optTruthy p.displayname) then true
  else false

/-- The candidate/commit part of `update_displayname` after the contact
refinement (puppet.py lines 269-293), acting on the refined state `p1`.
`syncOk` models whether the presentation-layer `set_displayname` call
succeeds; on failure the three name fields are rolled back to
`""`/`None`/`0` locally while `True` is still returned. -/
def update_displayname_commit (p1 : PuppetState) (source : Source) (u : User)
    (cfg : Config) (syncOk : Bool) : DNResult :=
  let dq := get_displayname cfg u true
  if p1.displayname ≠ some dq.1 ∧ p1.displayname_quality ≤ dq.2 then
    let p2 := { p1 with displayname := some dq.1,
                        displayname_source := some source.tgid,
                        displayname_quality := dq.2 }
    let call := dq.1.take cfg.displayname_max_length
    if syncOk then ⟨p2, true, [call]⟩
    else ⟨{ p2 with displayname := some "",
                    displayname_source := none,
                    displayname_quality := 0 }, true, [call]⟩
  else if source.is_relaybot || p1.displayname_source == none then
    ⟨{ p1 with displayname_source := some source.tgid }, true, []⟩
  else ⟨p1, false, []⟩

/-- The contact-tracking refinement of `update_displayname` (puppet.py
lines 261-267): a non-contact profile clears `displayname_contact`; a
contact profile against a non-contact record proceeds only when no truthy
displayname is stored (re-marking the record as contact), else returns
`False` unchanged. -/
def update_displayname_after (p : PuppetState) (source : Source) (u : User)
    (cfg : Config) (syncOk : Bool) : DNResult :=
  if !u.contact then
    update_displayname_commit { p with displayname_contact := false } source u cfg syncOk
  else if !p.displayname_contact then
    if !(optTruthy p.displayname) then
      update_displayname_commit { p with displayname_contact := true } source u cfg syncOk
    else ⟨p, false, []⟩
  else update_displayname_commit p source u cfg syncOk

/-- Embedding of `Puppet.update_displayname` (puppet.py lines 241-293). `fetched` is the
profile obtained from `source.client.get_entity` when `info` is an
`UpdateUserName` (the fetch happens only after the eligibility check). -/
def update_displayname (p : PuppetState) (source : Source) (info : InfoArg)
    (fetched : User) (cfg : Config) (syncOk : Bool) : DNResult :=
  if p.disable_updates then ⟨p, false, []⟩
  else if displayname_update_allowed p source info then
    let u := match info with | .user u => u | .updateUserName => fetched
    update_displayname_after p source u cfg syncOk
  else ⟨p, false, []⟩

/-- The `photo` argument of `update_avatar`: absent (`None`),
`UserProfilePhotoEmpty`, a `UserProfilePhoto` carrying a numeric photo id,
or an unrecognized type (warned about and ignored). -/
inductive PhotoArg where
  | absent
  | empty
  | photo (pid : Nat)
  | unknown
  deriving DecidableEq, Repr

/-- Result of `update_avatar`: post-call state, returned boolean, the
`set_avatar_url` calls issued (the content URIs pushed), and whether a
remote content transfer was attempted. -/
structure AvResult where
  state : PuppetState
  ret : Bool
  calls : List String
  transferAttempted : Bool
  deriving DecidableEq, Repr

/-- Embedding of `Puppet.update_avatar` (puppet.py lines 295-332). `transferResult`
models `util.transfer_file_to_matrix` (the `mxc` URI on success, `none` on
a failed transfer); `setOk` models whether `set_avatar_url` succeeds. -/
def update_avatar (p : PuppetState) (photo : PhotoArg) (cfg : Config)
    (transferResult : Option String) (setOk : Bool) : AvResult :=
  if p.disable_updates then ⟨p, false, [], false⟩
  else
    match photo with
    | .unknown => ⟨p, false, [], false⟩
    | _ =>
      let pid : String := match photo with
        | .photo n => toString n
        | _ => ""
      if pid == "" && !cfg.allow_avatar_remove then ⟨p, false, [], false⟩
      else if p.photo_id ≠ some pid then
        if pid == "" then
          let p1 := { p with photo_id := some "" }
          if setOk then ⟨p1, true, [""], false⟩
          else ⟨{ p1 with photo_id := some "" }, true, [""], false⟩
        else
          match transferResult with
          | none => ⟨p, false, [], true⟩
          | some mxc =>
            let p1 := { p with photo_id := some pid }
            if setOk then ⟨p1, true, [mxc], true⟩
            else ⟨{ p1 with photo_id := some "" }, true, [mxc], true⟩
      else ⟨p, false, [], false⟩

/-- Result of `update_info`: final state, whether each sub-update was
attempted, whether `save` was called (`changed`), and whether the method
returned normally (every exception in the sub-updates is caught). -/
structure UpdateInfoResult where
  state : PuppetState
  displaynameAttempted : Bool
  avatarAttempted : Bool
  saved : Bool
  returnedNormally : Bool
  deriving Repr

/-- The username step of `update_info` (puppet.py lines 225-227): overwrite
the stored username when it differs from the incoming one. -/
def set_username (p : PuppetState) (info_username : Option String) : PuppetState :=
  if p.username ≠ info_username then { p with username := info_username } else p

/-- Embedding of `Puppet.update_info` (puppet.py lines 223-239), with the two
sub-updates abstracted as oracles that either return a new state and a
changed flag, or raise (`Except.error` carrying the state at raise time).
Both oracle calls sit inside the single `try`/`except` of the source: a
raise in the displayname update skips the avatar update, and a raise in
either is swallowed, so the method always returns normally. -/
def update_info (p : PuppetState) (info_username : Option String) (info_bot : Bool)
    (dn av : PuppetState → Except PuppetState (PuppetState × Bool)) : UpdateInfoResult :=
  let c0 : Bool := !(p.username == info_username)
  let p0 := set_username p info_username
  if p0.disable_updates then
    ⟨{ p0 with is_bot := some info_bot }, false, false, c0, true⟩
  else
    match dn p0 with
    | .error pe => ⟨{ pe with is_bot := some info_bot }, true, false, c0, true⟩
    | .ok (p1, c1) =>
      match av p1 with
      | .error pe => ⟨{ pe with is_bot := some info_bot }, true, true, c0 || c1, true⟩
      | .ok (p2, c2) => ⟨{ p2 with is_bot := some info_bot }, true, true, c0 || c1 || c2, true⟩

/-- The identity cache: the `by_tgid` and `by_custom_mxid` class maps,
as association lists (most recent insertion first). -/
structure CacheState where
  by_tgid : List (Nat × PuppetState)
  by_custom_mxid : List (String × PuppetState)
  deriving Repr

/-- Embedding of `Puppet._add_to_cache` (puppet.py lines 341-344): write `by_tgid`, and
`by_custom_mxid` as well when a truthy custom mxid is present. -/
def add_to_cache (c : CacheState) (p : PuppetState) : CacheState :=
  { by_tgid := (p.id, p) :: c.by_tgid,
    by_custom_mxid :=
      match p.custom_mxid with
      | some m => if m == "" then c.by_custom_mxid else (m, p) :: c.by_custom_mxid
      | none => c.by_custom_mxid }

/-- The constructor call `Puppet(tgid)` with all defaults: the zero-state puppet built on a
cache miss with `create=True`. -/
def new_puppet (tgid : Nat) : PuppetState := { id := tgid }

/-- Result of `get_by_tgid`: the returned puppet (or `none`), the cache
after the call, the record-store fetches issued (by id) and the
record-store inserts issued. -/
structure GetByTgidResult where
  result : Option PuppetState
  cache : CacheState
  storeFetches : List Nat
  storeInserts : List PuppetState
  deriving Repr

/-- Embedding of `Puppet.get_by_tgid` (puppet.py lines 346-368), sequential body (the
`async_getter_lock` wrapper serializes calls per key and is external to
this embedding): a `None` tgid returns `None` immediately; a cache hit is
returned as-is; otherwise the store is consulted and, on `create`, a fresh
zero-state puppet is inserted and cached. `store` is the record-store
fetch-by-id oracle. -/
def get_by_tgid (cache : CacheState) (store : Nat → Option PuppetState)
    (tgid : Option Nat) (create : Bool) : GetByTgidResult :=
  match tgid with
  | none => ⟨none, cache, [], []⟩
  | some t =>
    match cache.by_tgid.lookup t with
    | some pup => ⟨some pup, cache, [], []⟩
    | none =>
      match store t with
      | some pup => ⟨some pup, add_to_cache cache pup, [t], []⟩
      | none =>
        if create then
          let pup := new_puppet t
          ⟨some pup, add_to_cache cache pup, [t], [pup]⟩
        else ⟨none, cache, [t], []⟩

/-! ## Helper lemmas about the display-name commit step -/

/-- When the candidate differs from the stored name and its quality is at
least the stored one, a successful sync commits the new triple. -/
theorem commit_overwrite_ok (p1 : PuppetState) (source : Source) (u : User) (cfg : Config)
    (hc : p1.displayname ≠ some (get_displayname cfg u true).1)
    (hq : p1.displayname_quality ≤ (get_displayname cfg u true).2) :
    update_displayname_commit p1 source u cfg true =
      ⟨{ p1 with displayname := some (get_displayname cfg u true).1,
                 displayname_source := some source.tgid,
                 displayname_quality := (get_displayname cfg u true).2 },
        true, [(get_displayname cfg u true).1.take cfg.displayname_max_length]⟩ := by
  simp only [update_displayname_commit, if_pos (And.intro hc hq)]
  simp

/-- When the candidate differs and its quality suffices but the sync
fails, the triple is rolled back to empty, unset and zero while the call
still returns true. -/
theorem commit_overwrite_rollback (p1 : PuppetState) (source : Source) (u : User) (cfg : Config)
    (hc : p1.displayname ≠ some (get_displayname cfg u true).1)
    (hq : p1.displayname_quality ≤ (get_displayname cfg u true).2) :
    update_displayname_commit p1 source u cfg false =
      ⟨{ p1 with displayname := some "",
                 displayname_source := none,
                 displayname_quality := 0 },
        true, [(get_displayname cfg u true).1.take cfg.displayname_max_length]⟩ := by
  simp only [update_displayname_commit, if_pos (And.intro hc hq)]
  simp

/-- When the overwrite condition fails, the name and quality are left
alone; the source is stamped exactly when the updating source is a
relaybot or no displayname source is recorded. -/
theorem commit_skip (p1 : PuppetState) (source : Source) (u : User) (cfg : Config) (syncOk : Bool)
    (hno : ¬(p1.displayname ≠ some (get_displayname cfg u true).1 ∧
             p1.displayname_quality ≤ (get_displayname cfg u true).2)) :
    update_displayname_commit p1 source u cfg syncOk =
      (if source.is_relaybot || p1.displayname_source == none then
        ⟨{ p1 with displayname_source := some source.tgid }, true, []⟩
      else ⟨p1, false, []⟩) := by
  simp only [update_displayname_commit, if_neg hno]

/-- When the update is eligible and the contact refinement does not bail
out, `update_displayname` on a plain `User` profile runs the commit step on
a state that agrees with the input on the three name fields. -/
theorem update_displayname_reaches_commit (p : PuppetState) (source : Source) (u : User)
    (fetched : User) (cfg : Config) (syncOk : Bool)
    (hd : p.disable_updates = false)
    (ha : displayname_update_allowed p source (.user u) = true)
    (hg : u.contact = true → (p.displayname_contact = true ∨ optTruthy p.displayname = false)) :
    ∃ p1 : PuppetState,
      p1.displayname = p.displayname ∧
      p1.displayname_source = p.displayname_source ∧
      p1.displayname_quality = p.displayname_quality ∧
      update_displayname p source (.user u) fetched cfg syncOk =
        update_displayname_commit p1 source u cfg syncOk := by
  cases hu : u.contact with
  | false =>
    refine ⟨{ p with displayname_contact := false }, rfl, rfl, rfl, ?_⟩
    simp [update_displayname, update_displayname_after, hd, ha, hu]
  | true =>
    cases hpc : p.displayname_contact with
    | true =>
      refine ⟨p, rfl, rfl, rfl, ?_⟩
      have : ({ p with displayname_contact := p.displayname_contact } : PuppetState) = p := rfl
      simp [update_displayname, update_displayname_after, hd, ha, hu, hpc]
    | false =>
      have hopt : optTruthy p.displayname = false := by
        rcases hg hu with h | h
        · rw [hpc] at h; exact absurd h (by simp)
        · exact h
      refine ⟨{ p with displayname_contact := true }, rfl, rfl, rfl, ?_⟩
      simp [update_displayname, update_displayname_after, hd, ha, hu, hpc, hopt]

/-! ## Claim theorems -/

/-- Claim C1, counterexample: a non-bot non-relay source (tgid 2), a stored
displayname "Bob" whose source of record is 3, and an incoming profile with
contact = true. The claim says condition (c) of the eligibility disjunction
makes this update eligible; the code evaluates the whole disjunction to
false and attempts nothing. -/
theorem c1_counterexample :
    displayname_update_allowed
      { id := 5, displayname := some "Bob", displayname_source := some 3 }
      { tgid := 2, is_relaybot := false, is_bot := false }
      (InfoArg.user { id := 5, contact := true }) = false ∧
    update_displayname
      { id := 5, displayname := some "Bob", displayname_source := some 3 }
      { tgid := 2, is_relaybot := false, is_bot := false }
      (InfoArg.user { id := 5, contact := true })
      { id := 5, contact := true }
      { displayname_preference := [NamePref.first_name] } true =
      ⟨{ id := 5, displayname := some "Bob", displayname_source := some 3 }, false, []⟩ := by
  decide

/-- Claim C1 (amended): condition (c) of the eligibility disjunction holds
when the incoming profile marks the subject as NOT a contact. Given a
source that is neither bot nor relaybot and whose id differs from the
displayname source of record, a profile with contact = false makes the
update eligible and proceed to the candidate/quality computation (the
commit step, on the state with displayname_contact cleared). -/
theorem c1_amended (p : PuppetState) (source : Source) (u : User) (fetched : User)
    (cfg : Config) (syncOk : Bool)
    (h1 : source.is_relaybot = false) (h2 : source.is_bot = false)
    (h3 : p.displayname_source ≠ some source.tgid)
    (h4 : u.contact = false) (hd : p.disable_updates = false) :
    displayname_update_allowed p source (InfoArg.user u) = true ∧
    update_displayname p source (InfoArg.user u) fetched cfg syncOk =
      update_displayname_commit { p with displayname_contact := false } source u cfg syncOk := by
  have ha : displayname_update_allowed p source (InfoArg.user u) = true := by
    simp [displayname_update_allowed, h1, h2, h4]
  refine ⟨ha, ?_⟩
  simp [update_displayname, update_displayname_after, hd, ha, h4]

/-- Claim C1 witness: the amended theorem applied at a concrete input. -/
theorem c1_witness :
    displayname_update_allowed
      { id := 5, displayname := some "Bob", displayname_source := some 3 }
      { tgid := 2, is_relaybot := false, is_bot := false }
      (InfoArg.user { id := 5, first_name := some "Alice", contact := false }) = true ∧
    update_displayname
      { id := 5, displayname := some "Bob", displayname_source := some 3 }
      { tgid := 2, is_relaybot := false, is_bot := false }
      (InfoArg.user { id := 5, first_name := some "Alice", contact := false })
      { id := 5, first_name := some "Alice", contact := false }
      { displayname_preference := [NamePref.first_name] } true =
      update_displayname_commit
        { id := 5, displayname := some "Bob", displayname_source := some 3,
          displayname_contact := false }
        { tgid := 2, is_relaybot := false, is_bot := false }
        { id := 5, first_name := some "Alice", contact := false }
        { displayname_preference := [NamePref.first_name] } true :=
  c1_amended _ _ _ _ _ _ rfl rfl (by decide) rfl rfl

/-- Claim C2: in an eligible display-name update in which the candidate is
committed and the presentation-layer set_displayname call fails, the
post-call in-memory state has displayname = "", displayname_source = none,
displayname_quality = 0, and update_displayname still returns true, so the
caller persists the rolled-back empty state. -/
theorem c2_rollback_on_sync_failure (p : PuppetState) (source : Source) (u : User)
    (fetched : User) (cfg : Config)
    (hd : p.disable_updates = false)
    (ha : displayname_update_allowed p source (InfoArg.user u) = true)
    (hg : u.contact = true → (p.displayname_contact = true ∨ optTruthy p.displayname = false))
    (hc : p.displayname ≠ some (get_displayname cfg u true).1)
    (hq : p.displayname_quality ≤ (get_displayname cfg u true).2) :
    (update_displayname p source (InfoArg.user u) fetched cfg false).state.displayname =
        some "" ∧
    (update_displayname p source (InfoArg.user u) fetched cfg false).state.displayname_source =
        none ∧
    (update_displayname p source (InfoArg.user u) fetched cfg false).state.displayname_quality =
        0 ∧
    (update_displayname p source (InfoArg.user u) fetched cfg false).ret = true := by
  obtain ⟨p1, e1, e2, e3, heq⟩ :=
    update_displayname_reaches_commit p source u fetched cfg false hd ha hg
  rw [heq, commit_overwrite_rollback p1 source u cfg (by rw [e1]; exact hc)
    (by rw [e3]; exact hq)]
  exact ⟨rfl, rfl, rfl, rfl⟩

/-- Claim C2 witness: the rollback theorem applied at a concrete input. -/
theorem c2_witness :
    (update_displayname { id := 5 } { tgid := 2, is_relaybot := false, is_bot := false }
      (InfoArg.user { id := 5, first_name := some "Alice", contact := false })
      { id := 5, first_name := some "Alice", contact := false }
      { displayname_preference := [NamePref.first_name] } false).state.displayname =
        some "" ∧
    (update_displayname { id := 5 } { tgid := 2, is_relaybot := false, is_bot := false }
      (InfoArg.user { id := 5, first_name := some "Alice", contact := false })
      { id := 5, first_name := some "Alice", contact := false }
      { displayname_preference := [NamePref.first_name] } false).state.displayname_source =
        none ∧
    (update_displayname { id := 5 } { tgid := 2, is_relaybot := false, is_bot := false }
      (InfoArg.user { id := 5, first_name := some "Alice", contact := false })
      { id := 5, first_name := some "Alice", contact := false }
      { displayname_preference := [NamePref.first_name] } false).state.displayname_quality =
        0 ∧
    (update_displayname { id := 5 } { tgid := 2, is_relaybot := false, is_bot := false }
      (InfoArg.user { id := 5, first_name := some "Alice", contact := false })
      { id := 5, first_name := some "Alice", contact := false }
      { displayname_preference := [NamePref.first_name] } false).ret = true :=
  c2_rollback_on_sync_failure _ _ _ _ _ rfl (by decide) (by decide) (by decide) (by decide)

/-- Claim C3: for every eligible display-name update (eligibility
disjunction true and contact refinement not bailing out) with a successful
sync, the stored name/source/quality triple is overwritten when the
resolved candidate differs from the current displayname and the candidate
quality is at least the current quality (equal quality overwrites), and
the stored name and quality are left unchanged otherwise (a strictly
lower-quality or identical candidate never overwrites). -/
theorem c3_overwrite_iff (p : PuppetState) (source : Source) (u : User) (fetched : User)
    (cfg : Config)
    (hd : p.disable_updates = false)
    (ha : displayname_update_allowed p source (InfoArg.user u) = true)
    (hg : u.contact = true → (p.displayname_contact = true ∨ optTruthy p.displayname = false)) :
    ((p.displayname ≠ some (get_displayname cfg u true).1 ∧
      p.displayname_quality ≤ (get_displayname cfg u true).2) →
      ((update_displayname p source (InfoArg.user u) fetched cfg true).state.displayname =
          some (get_displayname cfg u true).1 ∧
       (update_displayname p source (InfoArg.user u) fetched cfg true).state.displayname_source =
          some source.tgid ∧
       (update_displayname p source (InfoArg.user u) fetched cfg true).state.displayname_quality =
          (get_displayname cfg u true).2 ∧
       (update_displayname p source (InfoArg.user u) fetched cfg true).ret = true)) ∧
    (¬(p.displayname ≠ some (get_displayname cfg u true).1 ∧
       p.displayname_quality ≤ (get_displayname cfg u true).2) →
      ((update_displayname p source (InfoArg.user u) fetched cfg true).state.displayname =
          p.displayname ∧
       (update_displayname p source (InfoArg.user u) fetched cfg true).state.displayname_quality =
          p.displayname_quality)) := by
  obtain ⟨p1, e1, e2, e3, heq⟩ :=
    update_displayname_reaches_commit p source u fetched cfg true hd ha hg
  constructor
  · rintro ⟨hc, hq⟩
    rw [heq, commit_overwrite_ok p1 source u cfg (by rw [e1]; exact hc) (by rw [e3]; exact hq)]
    exact ⟨rfl, rfl, rfl, rfl⟩
  · intro hno
    have hno1 : ¬(p1.displayname ≠ some (get_displayname cfg u true).1 ∧
        p1.displayname_quality ≤ (get_displayname cfg u true).2) := by
      rw [e1, e3]; exact hno
    rw [heq, commit_skip p1 source u cfg true hno1]
    split <;> exact ⟨e1, e3⟩

/-- Claim C3 witness: the overwrite-iff theorem applied at a concrete
input on which the overwrite condition holds. -/
theorem c3_witness :
    (({ id := 5 } : PuppetState).displayname ≠
        some (get_displayname { displayname_preference := [NamePref.first_name] }
          { id := 5, first_name := some "Alice", contact := false } true).1 ∧
     ({ id := 5 } : PuppetState).displayname_quality ≤
        (get_displayname { displayname_preference := [NamePref.first_name] }
          { id := 5, first_name := some "Alice", contact := false } true).2) ∧
    ((update_displayname { id := 5 } { tgid := 2, is_relaybot := false, is_bot := false }
      (InfoArg.user { id := 5, first_name := some "Alice", contact := false })
      { id := 5, first_name := some "Alice", contact := false }
      { displayname_preference := [NamePref.first_name] } true).state.displayname =
        some "Alice" ∧
     (update_displayname { id := 5 } { tgid := 2, is_relaybot := false, is_bot := false }
      (InfoArg.user { id := 5, first_name := some "Alice", contact := false })
      { id := 5, first_name := some "Alice", contact := false }
      { displayname_preference := [NamePref.first_name] } true).state.displayname_source =
        some 2 ∧
     (update_displayname { id := 5 } { tgid := 2, is_relaybot := false, is_bot := false }
      (InfoArg.user { id := 5, first_name := some "Alice", contact := false })
      { id := 5, first_name := some "Alice", contact := false }
      { displayname_preference := [NamePref.first_name] } true).state.displayname_quality =
        99 ∧
     (update_displayname { id := 5 } { tgid := 2, is_relaybot := false, is_bot := false }
      (InfoArg.user { id := 5, first_name := some "Alice", contact := false })
      { id := 5, first_name := some "Alice", contact := false }
      { displayname_preference := [NamePref.first_name] } true).ret = true) :=
  ⟨⟨by decide, by decide⟩,
    (c3_overwrite_iff _ _ _ _ _ rfl (by decide) (by decide)).1 ⟨by decide, by decide⟩⟩

/-- Claim C4, counterexample: with a displayname sub-update that raises
and an avatar sub-update that would succeed, `update_info` never attempts
the avatar update: both sub-updates sit in one shared try block, so the
displayname exception skips the avatar step (the claim says the avatar
update is still attempted). -/
theorem c4_counterexample :
    (update_info { id := 5 } (some "u") true
      (fun s => Except.error s) (fun s => Except.ok (s, true))).displaynameAttempted = true ∧
    (update_info { id := 5 } (some "u") true
      (fun s => Except.error s) (fun s => Except.ok (s, true))).avatarAttempted = false := by
  exact ⟨rfl, rfl⟩

/-- Claim C4 (amended): the display-name and avatar sub-updates of
`update_info` share a single try/except, so an exception raised inside the
displayname update prevents the avatar update from being attempted; an
exception in either sub-update is caught there and never prevents
`update_info` from returning normally. -/
theorem c4_amended (p : PuppetState) (un : Option String) (b : Bool)
    (dn av : PuppetState → Except PuppetState (PuppetState × Bool)) :
    (update_info p un b dn av).returnedNormally = true ∧
    (∀ pe : PuppetState, dn (set_username p un) = Except.error pe →
      (update_info p un b dn av).avatarAttempted = false) := by
  constructor
  · simp only [update_info]
    split
    · rfl
    · rcases hdn : dn (set_username p un) with pe | pr
      · simp [hdn]
      · rcases hav : av pr.1 with pe2 | pr2 <;> simp [hdn, hav]
  · intro pe hdn
    simp only [update_info, hdn]
    split <;> rfl

/-- Claim C4 witness: the amended theorem applied at a concrete input with
a raising displayname sub-update. -/
theorem c4_witness :
    (update_info { id := 6 } (some "v") false
      (fun s => Except.error s) (fun s => Except.ok (s, true))).returnedNormally = true ∧
    (update_info { id := 6 } (some "v") false
      (fun s => Except.error s) (fun s => Except.ok (s, true))).avatarAttempted = false :=
  ⟨(c4_amended { id := 6 } (some "v") false
      (fun s => Except.error s) (fun s => Except.ok (s, true))).1,
   (c4_amended { id := 6 } (some "v") false
      (fun s => Except.error s) (fun s => Except.ok (s, true))).2
      (set_username { id := 6 } (some "v")) rfl⟩

/-- Claim C5, counterexample: the normalization of the string
space, U+200B, space, Alice, U+200D, space is "Alice", not Alice
followed by U+200D: the zero-width joiner is part of the end-strip
whitespace set, so a trailing U+200D is removed. -/
theorem c5_counterexample :
    filter_name (some " \u200b Alice\u200d ") = "Alice" ∧
    filter_name (some " \u200b Alice\u200d ") ≠ "Alice\u200d" := by
  decide

/-- Claim C5 (amended): the string space, U+200B, space, Alice, U+200D,
space normalizes to "Alice": leading and trailing whitespace, zero-width
space and zero-width joiner are all stripped at the ends, because U+200D
belongs to the end-strip set. The format-character filter applies after
the end strip, so an interior zero-width joiner (U+200D) or non-joiner
(U+200C) is retained while any other interior format (Cf) character, such
as a soft hyphen (U+00AD), is dropped. -/
theorem c5_amended :
    filter_name (some " \u200b Alice\u200d ") = "Alice" ∧
    filter_name (some "Al\u200dice") = "Al\u200dice" ∧
    filter_name (some "Al\u200cice") = "Al\u200cice" ∧
    filter_name (some "Al\u00adice") = "Alice" := by
  decide

/-- Claim C6: for every profile whose deleted flag is set, the resolved
display name is exactly "Deleted account <id>" with the numeric id
substituted, and the returned quality is exactly 99, for every preference
list and every combination of the other profile name fields (the first
component is stated for the raw, unformatted resolver output; the quality
component holds for either value of enable_format). -/
theorem c6_deleted_override (cfg : Config) (u : User) (h : u.deleted = true) :
    get_displayname cfg u false = ("Deleted account " ++ toString u.id, 99) ∧
    ∀ ef : Bool, (get_displayname cfg u ef).2 = 99 := by
  constructor
  · simp [get_displayname, h, format_name]
  · intro ef
    simp [get_displayname, h]

/-- Claim C6 witness: the deleted-account theorem applied to a concrete
deleted profile with a populated preference list and name fields. -/
theorem c6_witness :
    get_displayname { displayname_preference := [NamePref.username, NamePref.first_name] }
      { id := 7, first_name := some "Quinn", username := some "quinn", deleted := true }
      false = ("Deleted account 7", 99) ∧
    ∀ ef : Bool,
      (get_displayname { displayname_preference := [NamePref.username, NamePref.first_name] }
        { id := 7, first_name := some "Quinn", username := some "quinn", deleted := true }
        ef).2 = 99 :=
  c6_deleted_override _ _ rfl

/-- Claim C7, counterexample: source 2 is a bot (not a relaybot), the
stored name "X" has source of record 3 and quality 99, and the incoming
non-contact profile resolves to the identical candidate "X", so no
overwrite happens. The claim says a bot source is then still stamped as
displayname_source with a true return; the code returns false and stamps
nothing (while the contact-tracking step has already cleared
displayname_contact, so a field did change). -/
theorem c7_counterexample :
    (update_displayname
      { id := 5, displayname := some "X", displayname_source := some 3,
        displayname_quality := 99 }
      { tgid := 2, is_relaybot := false, is_bot := true }
      (InfoArg.user { id := 5, first_name := some "X", contact := false })
      { id := 5, first_name := some "X", contact := false }
      { displayname_preference := [NamePref.first_name] } true).ret = false ∧
    (update_displayname
      { id := 5, displayname := some "X", displayname_source := some 3,
        displayname_quality := 99 }
      { tgid := 2, is_relaybot := false, is_bot := true }
      (InfoArg.user { id := 5, first_name := some "X", contact := false })
      { id := 5, first_name := some "X", contact := false }
      { displayname_preference := [NamePref.first_name] } true).state.displayname_source =
        some 3 ∧
    (update_displayname
      { id := 5, displayname := some "X", displayname_source := some 3,
        displayname_quality := 99 }
      { tgid := 2, is_relaybot := false, is_bot := true }
      (InfoArg.user { id := 5, first_name := some "X", contact := false })
      { id := 5, first_name := some "X", contact := false }
      { displayname_preference := [NamePref.first_name] } true).state.displayname_contact =
        false := by
  decide

/-- Claim C7 (amended): in an eligible update in which the overwrite
condition fails, the stored displayname and quality are left unchanged; if
the source is a RELAYBOT identity or displayname_source is unset (None),
displayname_source is stamped with the source id and true is returned
(a plain bot source does not qualify); otherwise displayname_source is
also unchanged and false is returned, though the contact-tracking step may
still have updated displayname_contact. -/
theorem c7_amended (p : PuppetState) (source : Source) (u : User) (fetched : User)
    (cfg : Config) (syncOk : Bool)
    (hd : p.disable_updates = false)
    (ha : displayname_update_allowed p source (InfoArg.user u) = true)
    (hg : u.contact = true → (p.displayname_contact = true ∨ optTruthy p.displayname = false))
    (hno : ¬(p.displayname ≠ some (get_displayname cfg u true).1 ∧
             p.displayname_quality ≤ (get_displayname cfg u true).2)) :
    (update_displayname p source (InfoArg.user u) fetched cfg syncOk).state.displayname =
        p.displayname ∧
    (update_displayname p source (InfoArg.user u) fetched cfg syncOk).state.displayname_quality =
        p.displayname_quality ∧
    ((source.is_relaybot = true ∨ p.displayname_source = none) →
      ((update_displayname p source (InfoArg.user u) fetched cfg syncOk).state.displayname_source =
          some source.tgid ∧
       (update_displayname p source (InfoArg.user u) fetched cfg syncOk).ret = true)) ∧
    ((source.is_relaybot = false ∧ p.displayname_source ≠ none) →
      ((update_displayname p source (InfoArg.user u) fetched cfg syncOk).state.displayname_source =
          p.displayname_source ∧
       (update_displayname p source (InfoArg.user u) fetched cfg syncOk).ret = false)) := by
  obtain ⟨p1, e1, e2, e3, heq⟩ :=
    update_displayname_reaches_commit p source u fetched cfg syncOk hd ha hg
  have hno1 : ¬(p1.displayname ≠ some (get_displayname cfg u true).1 ∧
      p1.displayname_quality ≤ (get_displayname cfg u true).2) := by
    rw [e1, e3]; exact hno
  rw [heq, commit_skip p1 source u cfg syncOk hno1]
  refine ⟨?_, ?_, ?_, ?_⟩
  · split <;> exact e1
  · split <;> exact e3
  · intro hb
    have hb2 : (source.is_relaybot || p1.displayname_source == none) = true := by
      rcases hb with h | h
      · simp [h]
      · simp [e2, h]
    rw [if_pos hb2]
    exact ⟨rfl, rfl⟩
  · rintro ⟨hr, hs⟩
    have hb2 : ¬((source.is_relaybot || p1.displayname_source == none) = true) := by
      simp [hr, e2, hs]
    rw [if_neg hb2]
    exact ⟨e2, rfl⟩

/-- Claim C7 witness: the amended theorem applied at the concrete
counterexample input (a bot, non-relaybot source with a set
displayname_source and a non-overwriting candidate). -/
theorem c7_witness :
    (update_displayname
      { id := 5, displayname := some "X", displayname_source := some 3,
        displayname_quality := 99 }
      { tgid := 2, is_relaybot := false, is_bot := true }
      (InfoArg.user { id := 5, first_name := some "X", contact := false })
      { id := 5, first_name := some "X", contact := false }
      { displayname_preference := [NamePref.first_name] } true).state.displayname =
        some "X" ∧
    (update_displayname
      { id := 5, displayname := some "X", displayname_source := some 3,
        displayname_quality := 99 }
      { tgid := 2, is_relaybot := false, is_bot := true }
      (InfoArg.user { id := 5, first_name := some "X", contact := false })
      { id := 5, first_name := some "X", contact := false }
      { displayname_preference := [NamePref.first_name] } true).state.displayname_source =
        some 3 ∧
    (update_displayname
      { id := 5, displayname := some "X", displayname_source := some 3,
        displayname_quality := 99 }
      { tgid := 2, is_relaybot := false, is_bot := true }
      (InfoArg.user { id := 5, first_name := some "X", contact := false })
      { id := 5, first_name := some "X", contact := false }
      { displayname_preference := [NamePref.first_name] } true).ret = false := by
  have h := c7_amended
    { id := 5, displayname := some "X", displayname_source := some 3,
      displayname_quality := 99 }
    { tgid := 2, is_relaybot := false, is_bot := true }
    { id := 5, first_name := some "X", contact := false }
    { id := 5, first_name := some "X", contact := false }
    { displayname_preference := [NamePref.first_name] } true
    rfl (by decide) (by decide) (by decide)
  exact ⟨h.1, (h.2.2.2 ⟨rfl, by decide⟩).1, (h.2.2.2 ⟨rfl, by decide⟩).2⟩

/-- Claim C8: with avatar removal disabled in the configuration, a
photo-to-empty transition (incoming photo absent or explicitly empty,
whatever photo id is stored) is a complete no-op: `update_avatar` returns
false, the in-memory state is unchanged, no presentation-layer
set_avatar_url call is issued, and no content transfer is attempted. -/
theorem c8_avatar_remove_gate (p : PuppetState) (photo : PhotoArg) (cfg : Config)
    (transferResult : Option String) (setOk : Bool)
    (hremove : cfg.allow_avatar_remove = false)
    (hphoto : photo = PhotoArg.absent ∨ photo = PhotoArg.empty) :
    update_avatar p photo cfg transferResult setOk = ⟨p, false, [], false⟩ := by
  rcases hphoto with h | h <;> subst h <;> simp [update_avatar, hremove]

/-- Claim C8 witness: the gate theorem applied to a concrete state holding
a non-empty photo id, with an absent incoming photo. -/
theorem c8_witness :
    update_avatar { id := 5, photo_id := some "123" } PhotoArg.absent
      { displayname_preference := [], allow_avatar_remove := false } (some "mxc") true =
      ⟨{ id := 5, photo_id := some "123" }, false, [], false⟩ :=
  c8_avatar_remove_gate _ _ _ _ _ rfl (Or.inl rfl)

/-- Claim C10: calling get_by_tgid with a None tgid returns None
immediately: no record-store fetch, no insert, and both cache maps are
left exactly as they were, for either value of create. -/
theorem c10_get_by_tgid_none (cache : CacheState) (store : Nat → Option PuppetState)
    (create : Bool) :
    get_by_tgid cache store none create = ⟨none, cache, [], []⟩ := rfl

end MautrixTelegram
